import Mathlib

/-!
Verification of the smart_grade grading core.

Shallow embedding of the repository sources:
- `src/types.ts` — the data model (`FileWithPreview`, `GradingStatus`, `Language`);
- `src/services/geminiService.ts` — `gradingSchema`, `gradeExam` (request
  composition and response handling) and `generateImprovedInstructions`;
- `src/App.tsx` — the session state owned by the `App` component and the
  handlers `handleGrade` and `handleImproveInstructions`.

External effects (the Gemini call, `JSON.parse`) are modelled by passing their
outcome as an explicit argument; the pure logic around them is translated
directly. Strings from the source are transcribed verbatim (apostrophes are
written with the `\x27` escape).
-/

namespace SmartGrade

/-! ## Data model (src/types.ts) -/

/-- Language from src/types.ts line 31: `'en' | 'zh'`. -/
inductive Language where
  | en : Language
  | zh : Language
deriving DecidableEq, Repr

/-- GradingStatus from src/types.ts line 29:
`'idle' | 'processing' | 'success' | 'error' | 'improving'`. -/
inductive GradingStatus where
  | idle : GradingStatus
  | processing : GradingStatus
  | success : GradingStatus
  | error : GradingStatus
  | improving : GradingStatus
deriving DecidableEq, Repr

/-- FileWithPreview from src/types.ts lines 22-27. The opaque browser `File`
object is not represented; only the fields the grading core reads
(`base64`, `mimeType`) plus `previewUrl` are kept. `base64?` is optional. -/
structure FileWithPreview where
  previewUrl : String
  base64 : Option String
  mimeType : String
deriving DecidableEq, Repr

/-! ## JSON values

A JSON value as produced by `JSON.parse` on the model response body.
Numbers are rationals (JSON numbers are decimal literals). -/

/-- JSON value tree: the result of `JSON.parse` on a response body. -/
inductive Json where
  | null : Json
  | bool (b : Bool) : Json
  | num (n : ℚ) : Json
  | str (s : String) : Json
  | arr (elems : List Json) : Json
  | obj (fields : List (String × Json)) : Json

/-! ## Response schema (src/services/geminiService.ts lines 7-35)

The `@google/genai` `Schema` values used by the source, restricted to the
constructors the source uses (`Type.OBJECT`, `Type.ARRAY`, `Type.STRING`,
`Type.NUMBER`, `Type.BOOLEAN`). The human-readable `description` strings
attached in the source are non-structural (they do not affect what parses)
and are omitted. -/

/-- Schema declaration AST mirroring the `@google/genai` `Schema` values the
source builds: a type tag, `properties`, and the `required` name list. -/
inductive Schema where
  | str : Schema
  | num : Schema
  | boolean : Schema
  | arr (items : Schema) : Schema
  | obj (properties : List (String × Schema)) (required : List String) : Schema

mutual

/-- Structural conformance of a JSON value to a schema: every `required`
field of an object is present, and every present field that is declared in
`properties` has the declared shape (extra undeclared fields are ignored,
as in JSON-schema-style validation). -/
def conforms : Schema → Json → Bool
  | .str, .str _ => true
  | .num, .num _ => true
  | .boolean, .bool _ => true
  | .arr items, .arr l => conformsArr items l
  | .obj properties required, .obj fields =>
      required.all (fun name => (fields.find? (fun p => p.1 == name)).isSome) &&
      conformsObj properties fields
  | _, _ => false

/-- Every element of a JSON array conforms to the item schema. -/
def conformsArr : Schema → List Json → Bool
  | _, [] => true
  | items, j :: rest => conforms items j && conformsArr items rest

/-- Every present field that is declared in `properties` conforms to its
declared schema. -/
def conformsObj : List (String × Schema) → List (String × Json) → Bool
  | _, [] => true
  | properties, (name, j) :: rest =>
      (match properties.find? (fun p => p.1 == name) with
       | some q => conforms q.2 j
       | none => true) && conformsObj properties rest

end

/-- Per-question item schema, inlined in the source at
src/services/geminiService.ts lines 18-31. `rubricReference` is declared but
absent from `required`: it is the only optional question field. -/
def questionItemSchema : Schema :=
  Schema.obj
    [("questionId", Schema.str),
     ("score", Schema.num),
     ("maxScore", Schema.num),
     ("isCorrect", Schema.boolean),
     ("studentAnswer", Schema.str),
     ("correction", Schema.str),
     ("rubricReference", Schema.str),
     ("comments", Schema.str)]
    ["questionId", "score", "maxScore", "isCorrect", "studentAnswer", "correction", "comments"]

/-- `gradingSchema` from src/services/geminiService.ts lines 7-35.
`studentName` is declared but absent from `required`. -/
def gradingSchema : Schema :=
  Schema.obj
    [("studentName", Schema.str),
     ("totalScore", Schema.num),
     ("maxScore", Schema.num),
     ("letterGrade", Schema.str),
     ("summary", Schema.str),
     ("constructiveFeedback", Schema.str),
     ("questions", Schema.arr questionItemSchema)]
    ["totalScore", "maxScore", "letterGrade", "summary", "questions", "constructiveFeedback"]

/-! ## ECMAScript string trimming -/

/-- Characters removed by ECMAScript `String.prototype.trim` (the WhiteSpace
and LineTerminator productions; the common subset suffices here). -/
def jsWhitespace (c : Char) : Bool :=
  c = ' ' || c = '\t' || c = '\n' || c = '\r' || c = '\x0b' || c = '\x0c' ||
  c = ' ' || c = '﻿'

/-- ECMAScript `String.prototype.trim`: drop leading and trailing
whitespace. -/
def jsTrim (s : String) : String :=
  ⟨((s.data.dropWhile jsWhitespace).reverse.dropWhile jsWhitespace).reverse⟩

/-! ## Request composition (src/services/geminiService.ts lines 44-110) -/

/-- One element of the `parts` array sent to the model: either a text
segment or an inline image (`inlineData` with `mimeType` and base64
`data`). -/
inductive Part where
  | text (s : String) : Part
  | inlineData (mimeType : String) (data : String) : Part
deriving DecidableEq, Repr

/-- `langInstruction` from src/services/geminiService.ts lines 46-48. -/
def langInstruction : Language → String
  | .zh => "IMPORTANT: Provide ALL text fields (summary, feedback, studentAnswer, correction, comments, rubricReference) in Simplified Chinese (简体中文)."
  | .en => "IMPORTANT: Provide all text fields in English."

/-- Text of the prompt template (lines 51-65) before the interpolated
`langInstruction`. -/
def promptHead : String :=
  "\n    You are an expert academic grader for K-12 education. \n    Your task is to grade a student\x27s exam paper based on the provided answer key (rubric) and optional instructions.\n    \n    "

/-- Text of the prompt template (lines 51-65) after the interpolated
`langInstruction`. -/
def promptMid : String :=
  "\n\n    Instructions:\n    1. Analyze the \x27Rubric/Answer Key\x27 images to understand the correct answers and point distribution.\n    2. Analyze the \x27Student Exam\x27 images. \n    3. Grade each question carefully. Partial credit is allowed if the rubric implies it or if the student shows partial understanding (unless strict grading is requested).\n    4. For every question, you MUST quote the specific part of the rubric/answer key that explains why you gave that score in the \x27rubricReference\x27 field.\n    5. Be fair, consistent, and constructive.\n    6. If the student\x27s handwriting is illegible, mark it as 0 and note it in comments.\n    7. Return the result in the specified JSON format.\n  "

/-- The base prompt template literal of lines 51-65 with `langInstruction`
interpolated. -/
def basePrompt (language : Language) : String :=
  promptHead ++ langInstruction language ++ promptMid

/-- The full leading instruction text: the template, then (lines 67-69)
`Additional Teacher Instructions` when `instructions.trim()` is truthy,
then the images note of line 71. -/
def promptText (instructions : String) (language : Language) : String :=
  basePrompt language
    ++ (if jsTrim instructions ≠ "" then "\n\nAdditional Teacher Instructions: " ++ instructions else "")
    ++ "\n\nBelow are the images. First, the Answer Key/Rubric, then the Student Exam."

/-- Page label pushed before each rubric image (line 78). -/
def rubricLabel (n : Nat) : String :=
  "[Image: Rubric Page " ++ toString n ++ "]"

/-- Page label pushed before each exam image (line 91). -/
def examLabel (n : Nat) : String :=
  "[Image: Student Exam Page " ++ toString n ++ "]"

/-- The `forEach((f, index) => { if (f.base64) { push label; push image } })`
loops of lines 76-99, with `i` the current 0-based `index`. A file whose
`base64` is absent contributes nothing. -/
def pushImageParts (label : Nat → String) : Nat → List FileWithPreview → List Part
  | _, [] => []
  | i, f :: rest =>
      (match f.base64 with
       | some d => [Part.text (label (i + 1)), Part.inlineData f.mimeType d]
       | none => []) ++ pushImageParts label (i + 1) rest

/-- The complete `parts` array built by `gradeExam` (lines 44-99): the
instruction text, then rubric images, then exam images. -/
def buildParts (examFiles rubricFiles : List FileWithPreview)
    (instructions : String) (language : Language) : List Part :=
  [Part.text (promptText instructions language)]
    ++ pushImageParts rubricLabel 0 rubricFiles
    ++ pushImageParts examLabel 0 examFiles

/-- The `config` object of the `generateContent` call (lines 105-109). -/
structure GenerationConfig where
  responseMimeType : String
  responseSchema : Schema
  temperature : ℚ

/-- The full `generateContent` request of lines 102-110. -/
structure GenerateContentRequest where
  model : String
  parts : List Part
  config : GenerationConfig

/-- The constant config of lines 105-109: JSON mime type, the declared
`gradingSchema`, temperature 0.2. -/
def gradeConfig : GenerationConfig :=
  { responseMimeType := "application/json"
    responseSchema := gradingSchema
    temperature := 0.2 }

/-- The request `gradeExam` sends (lines 102-110): model name, the composed
`parts`, and the constant `gradeConfig`. Note that no component other than
the prompt text depends on `language`. -/
def gradeRequest (examFiles rubricFiles : List FileWithPreview)
    (instructions : String) (language : Language) : GenerateContentRequest :=
  { model := "gemini-2.5-flash"
    parts := buildParts examFiles rubricFiles instructions language
    config := gradeConfig }

/-! ## Response handling (src/services/geminiService.ts lines 101-121) -/

/-- Outcome of the awaited `generateContent` call together with the outcome
of `JSON.parse` on its text, the two external effects of lines 102-113:
the provider may reject; the response text may be missing or empty
(`if (response.text)` is falsy); `JSON.parse` may throw a `SyntaxError`;
or parsing yields a JSON value. -/
inductive GradeModelOutcome where
  | providerFail (message : String) : GradeModelOutcome
  | noText : GradeModelOutcome
  | badJson (message : String) : GradeModelOutcome
  | goodJson (body : Json) : GradeModelOutcome

/-- Errors `gradeExam` can throw to its caller: a rethrown provider error,
the `Error("No response text generated")` of line 116, or a rethrown
`JSON.parse` `SyntaxError`. -/
inductive GradeError where
  | providerError (message : String) : GradeError
  | noResponseText : GradeError
  | jsonSyntaxError (message : String) : GradeError
deriving DecidableEq, Repr

/-- The `message` property of the thrown error, as read by
`error.message` in `App.handleGrade`. -/
def errorText : GradeError → String
  | .providerError m => m
  | .noResponseText => "No response text generated"
  | .jsonSyntaxError m => m

/-- Result handling of `gradeExam` (lines 101-121): on a response with text,
`JSON.parse(response.text) as GradingResult` is returned unchanged (the cast
performs no checking and no transformation); an empty/missing text throws
`Error("No response text generated")`; any thrown error is logged and
rethrown by the `catch` of lines 118-121. The composed request is
`gradeRequest examFiles rubricFiles instructions language`. -/
def gradeExam (examFiles rubricFiles : List FileWithPreview)
    (instructions : String) (language : Language)
    (outcome : GradeModelOutcome) : Except GradeError Json :=
  match outcome with
  | .providerFail m => .error (.providerError m)
  | .noText => .error .noResponseText
  | .badJson m => .error (.jsonSyntaxError m)
  | .goodJson body => .ok body

/-! ## Instruction refinement (src/services/geminiService.ts lines 124-158) -/

/-- `generateImprovedInstructions` (lines 124-158): the model call is a
plain-text request (no response schema); its outcome is passed explicitly as
`response`, either a rejection message or `response.text` (possibly absent).
The function returns `response.text?.trim() || ""` on success and rethrows
on failure. The prompt built from `currentInstructions`, `teacherFeedback`
and `language` only feeds the external call and does not affect this
value. -/
def generateImprovedInstructions (currentInstructions teacherFeedback : String)
    (language : Language) (response : Except String (Option String)) :
    Except String String :=
  match response with
  | .error e => .error e
  | .ok t => .ok (match t with | some s => jsTrim s | none => "")

/-! ## Session state and handlers (src/App.tsx) -/

/-- The React state owned by `App` (src/App.tsx lines 51-57): language,
uploaded exam and rubric files, the instruction text (the instruction
ledger), the grading status, the last result, and the surfaced error
message. The result is kept as the raw JSON value `gradeExam` produced. -/
structure Session where
  language : Language
  examFiles : List FileWithPreview
  rubricFiles : List FileWithPreview
  instructions : String
  status : GradingStatus
  result : Option Json
  errorMessage : Option String

/-- `t.errorFiles` from the `translations` table (src/App.tsx lines 22
and 42), selected by the session language. -/
def errorFilesMsg : Language → String
  | .en => "Please upload at least one exam image and one rubric/key image."
  | .zh => "请至少上传一张试卷图片和一张答案图片。"

/-- Fallback message of src/App.tsx line 77. -/
def defaultGradeErrorMsg : String :=
  "An unexpected error occurred during grading."

/-- `handleGrade` (src/App.tsx lines 61-79) run to completion: with either
file group empty it only sets the error message and returns (no status
change, no call); otherwise it enters `processing`, awaits `gradeExam`, and
ends in `success` with the result or in `error` with
`error.message || defaultGradeErrorMsg`. The returned flag records whether
`gradeExam` was invoked, which coincides with the `processing` state having
been entered (lines 67-71). -/
def handleGrade (s : Session) (outcome : GradeModelOutcome) : Session × Bool :=
  if s.examFiles.length = 0 ∨ s.rubricFiles.length = 0 then
    ({ s with errorMessage := some (errorFilesMsg s.language) }, false)
  else
    match gradeExam s.examFiles s.rubricFiles s.instructions s.language outcome with
    | .ok r => ({ s with status := .success, result := some r, errorMessage := none }, true)
    | .error e =>
        ({ s with status := .error,
                  errorMessage :=
                    some (if errorText e = "" then defaultGradeErrorMsg else errorText e) }, true)

/-- `handleImproveInstructions` (src/App.tsx lines 96-118) run to
completion: falsy feedback returns at once (line 97); otherwise the status
passes through `improving` while `generateImprovedInstructions` runs, a
truthy new rule is appended to the instructions with the `[Updated Rule]: `
tag after a blank-line separator and the session returns to `idle` with the
result cleared; an empty rule or a thrown error ends back in `success`
with instructions and result untouched. The returned flag records whether
the model was invoked, which coincides with the `improving` state having
been entered (lines 98-100). -/
def handleImproveInstructions (s : Session) (feedback : String)
    (response : Except String (Option String)) : Session × Bool :=
  if feedback = "" then (s, false)
  else
    match generateImprovedInstructions s.instructions feedback s.language response with
    | .ok newRule =>
        if newRule ≠ "" then
          ({ s with
              instructions :=
                (if s.instructions ≠ "" then s.instructions ++ "\n\n" else "")
                  ++ "[Updated Rule]: " ++ newRule,
              result := none,
              status := .idle }, true)
        else
          ({ s with status := .success }, true)
    | .error _ => ({ s with status := .success }, true)

/-! ## Claim-side characterizations -/

/-- Projection of a parts list to its inline image payloads
(mimeType, data), in order of appearance. -/
def inlinePayloads : List Part → List (String × String)
  | [] => []
  | Part.inlineData m d :: rest => (m, d) :: inlinePayloads rest
  | Part.text _ :: rest => inlinePayloads rest

/-- The image payloads of an input file sequence, in input order, keeping
only files whose base64 payload is present. -/
def payloadsOf (files : List FileWithPreview) : List (String × String) :=
  files.filterMap (fun f => f.base64.map (fun d => (f.mimeType, d)))

/-- The segment chunk contributed by the file at 0-based input position
`p.1`: a page label built from that original position immediately followed
by the image, or nothing when the base64 payload is absent. -/
def labeledChunk (label : Nat → String) (p : Nat × FileWithPreview) : List Part :=
  match p.2.base64 with
  | some d => [Part.text (label (p.1 + 1)), Part.inlineData p.2.mimeType d]
  | none => []

/-- The image loops emit, per input file in input order, exactly the chunk
determined by that file and its original 0-based position. -/
theorem pushImageParts_eq_chunks (label : Nat → String) (k : Nat)
    (files : List FileWithPreview) :
    pushImageParts label k files
      = (List.enumFrom k files).flatMap (labeledChunk label) := by
  induction files generalizing k with
  | nil => rfl
  | cons f rest ih =>
      simp only [pushImageParts, List.enumFrom, List.flatMap_cons, labeledChunk, ih]

/-- The inline payloads emitted for a file group are exactly the payloads of
the input files that carry one, in input order. -/
theorem inlinePayloads_pushImageParts (label : Nat → String) (k : Nat)
    (files : List FileWithPreview) :
    inlinePayloads (pushImageParts label k files) = payloadsOf files := by
  induction files generalizing k with
  | nil => rfl
  | cons f rest ih =>
      cases hb : f.base64 <;>
        simp [pushImageParts, payloadsOf, inlinePayloads, hb, ih, List.filterMap_cons]

/-! ## Shared concrete data for witnesses -/

/-- A sample uploaded file whose base64 payload is present. -/
def sampleFile : FileWithPreview :=
  { previewUrl := "blob:1", base64 := some "QUJD", mimeType := "image/png" }

/-- A sample uploaded file whose base64 payload is absent. -/
def sampleFileNoData : FileWithPreview :=
  { previewUrl := "blob:0", base64 := none, mimeType := "image/png" }

/-- A concrete session sitting in the `success` state with a previous
result and a non-empty instruction ledger. -/
def baseSession : Session :=
  { language := .en
    examFiles := [sampleFile]
    rubricFiles := [sampleFile]
    instructions := "Be strict"
    status := .success
    result := some (Json.str "prev")
    errorMessage := none }

/-- A response body that is valid JSON but has none of the fields the
declared schema requires. -/
def badBody : Json := Json.obj [("foo", Json.num 1)]

/-- The schema-conforming response body of the grading scenario: totals
8/10, letter grade B, one question, no optional `studentName` or
`rubricReference`. -/
def scenarioBody : Json :=
  Json.obj
    [("totalScore", Json.num 8),
     ("maxScore", Json.num 10),
     ("letterGrade", Json.str "B"),
     ("summary", Json.str "Good work"),
     ("constructiveFeedback", Json.str "Review part 2"),
     ("questions", Json.arr
       [Json.obj
         [("questionId", Json.str "1"),
          ("score", Json.num 8),
          ("maxScore", Json.num 10),
          ("isCorrect", Json.bool false),
          ("studentAnswer", Json.str "..."),
          ("correction", Json.str "..."),
          ("comments", Json.str "...")]])]

/-! ## Claim theorems -/

/-- Claim C1: with either image group empty, `handleGrade` only records the
invalid-request message `errorFilesMsg` (the synchronous signal) and changes
nothing else — status, result, files, instructions and language are those of
the input session — and the model is not invoked (the returned flag is
`false`, and the `processing` state is never entered). -/
theorem handleGrade_missing_images_signals_invalid (s : Session)
    (outcome : GradeModelOutcome)
    (h : s.examFiles = [] ∨ s.rubricFiles = []) :
    handleGrade s outcome
      = ({ s with errorMessage := some (errorFilesMsg s.language) }, false) := by
  have hc : s.examFiles.length = 0 ∨ s.rubricFiles.length = 0 := by
    rcases h with h | h
    · exact Or.inl (by rw [h]; rfl)
    · exact Or.inr (by rw [h]; rfl)
  unfold handleGrade
  rw [if_pos hc]

/-- Witness for C1: a concrete session with no exam images; `handleGrade`
returns the same session with only the English invalid-request message set,
and the no-invocation flag. -/
theorem handleGrade_missing_images_signals_invalid_witness :
    handleGrade { baseSession with examFiles := [] }
        (GradeModelOutcome.goodJson (Json.str "x"))
      = ({ baseSession with examFiles := [],
                            errorMessage := some (errorFilesMsg Language.en) }, false) :=
  handleGrade_missing_images_signals_invalid
    { baseSession with examFiles := [] }
    (GradeModelOutcome.goodJson (Json.str "x")) (Or.inl rfl)

/-- Claim C2 counterexample: `badBody` does not conform to the declared
`gradingSchema` (it lacks every required field), yet `gradeExam` returns it
as a successful result instead of failing: the `JSON.parse(...) as
GradingResult` cast of line 113 performs no structural validation. -/
theorem gradeExam_accepts_nonconforming_body :
    conforms gradingSchema badBody = false ∧
    gradeExam [] [] "" Language.en (GradeModelOutcome.goodJson badBody)
      = Except.ok badBody :=
  ⟨by decide, rfl⟩

/-- Claim C2 (amended): `gradeExam` requests output in the declared
`gradingSchema` (it is the `responseSchema` of every composed request) and
fails hard — with no field-by-field fallback and no partial result — exactly
when the response text is empty/missing, when `JSON.parse` throws, or when
the provider fails; a body that parses as JSON is returned unchanged without
local schema validation, conformance being delegated to the provider. -/
theorem gradeExam_parse_behavior :
    (∀ (e r : List FileWithPreview) (i : String) (l : Language) (body : Json),
        gradeExam e r i l (GradeModelOutcome.goodJson body) = Except.ok body) ∧
    (∀ (e r : List FileWithPreview) (i : String) (l : Language),
        gradeExam e r i l GradeModelOutcome.noText
          = Except.error GradeError.noResponseText) ∧
    (∀ (e r : List FileWithPreview) (i : String) (l : Language) (m : String),
        gradeExam e r i l (GradeModelOutcome.badJson m)
          = Except.error (GradeError.jsonSyntaxError m)) ∧
    (∀ (e r : List FileWithPreview) (i : String) (l : Language) (m : String),
        gradeExam e r i l (GradeModelOutcome.providerFail m)
          = Except.error (GradeError.providerError m)) ∧
    (∀ (e r : List FileWithPreview) (i : String) (l : Language),
        (gradeRequest e r i l).config.responseSchema = gradingSchema) :=
  ⟨fun _ _ _ _ _ => rfl, fun _ _ _ _ => rfl, fun _ _ _ _ _ => rfl,
   fun _ _ _ _ _ => rfl, fun _ _ _ _ => rfl⟩

/-- Claim C3: for a request with at least one rubric and one exam image the
composed parts sequence is the single instruction segment followed by the
rubric group followed by the exam group; each group is the concatenation,
in input order, of per-file chunks in which a page label (built from the
original input position) immediately precedes the image; and the inline
payloads of each group are exactly the input payloads in input order. -/
theorem buildParts_segment_order (examFiles rubricFiles : List FileWithPreview)
    (instructions : String) (language : Language)
    (hr : rubricFiles ≠ []) (he : examFiles ≠ []) :
    buildParts examFiles rubricFiles instructions language
      = Part.text (promptText instructions language)
        :: ((List.enumFrom 0 rubricFiles).flatMap (labeledChunk rubricLabel)
            ++ (List.enumFrom 0 examFiles).flatMap (labeledChunk examLabel)) ∧
    inlinePayloads ((List.enumFrom 0 rubricFiles).flatMap (labeledChunk rubricLabel))
      = payloadsOf rubricFiles ∧
    inlinePayloads ((List.enumFrom 0 examFiles).flatMap (labeledChunk examLabel))
      = payloadsOf examFiles := by
  refine ⟨?_, ?_, ?_⟩
  · show Part.text (promptText instructions language)
        :: (pushImageParts rubricLabel 0 rubricFiles ++ pushImageParts examLabel 0 examFiles)
      = _
    rw [pushImageParts_eq_chunks, pushImageParts_eq_chunks]
  · rw [← pushImageParts_eq_chunks, inlinePayloads_pushImageParts]
  · rw [← pushImageParts_eq_chunks, inlinePayloads_pushImageParts]

/-- Witness for C3: one rubric group of two files (the first without a
payload) and one exam file. -/
theorem buildParts_segment_order_witness :
    buildParts [sampleFile] [sampleFileNoData, sampleFile] "" Language.en
      = Part.text (promptText "" Language.en)
        :: ((List.enumFrom 0 [sampleFileNoData, sampleFile]).flatMap (labeledChunk rubricLabel)
            ++ (List.enumFrom 0 [sampleFile]).flatMap (labeledChunk examLabel)) ∧
    inlinePayloads ((List.enumFrom 0 [sampleFileNoData, sampleFile]).flatMap (labeledChunk rubricLabel))
      = payloadsOf [sampleFileNoData, sampleFile] ∧
    inlinePayloads ((List.enumFrom 0 [sampleFile]).flatMap (labeledChunk examLabel))
      = payloadsOf [sampleFile] :=
  buildParts_segment_order [sampleFile] [sampleFileNoData, sampleFile] "" Language.en
    (List.cons_ne_nil _ _) (List.cons_ne_nil _ _)

/-- Claim C4: with non-empty feedback, when the refinement model call fails
or produces an empty rule, the session ends in the `success` state with the
instruction ledger and the previous grading result byte-for-byte
unchanged. -/
theorem improve_failure_preserves_result (s : Session) (feedback : String)
    (response : Except String (Option String)) (hf : feedback ≠ "")
    (h : (∃ m, generateImprovedInstructions s.instructions feedback s.language response
            = Except.error m) ∨
         generateImprovedInstructions s.instructions feedback s.language response
            = Except.ok "") :
    (handleImproveInstructions s feedback response).1.status = GradingStatus.success ∧
    (handleImproveInstructions s feedback response).1.instructions = s.instructions ∧
    (handleImproveInstructions s feedback response).1.result = s.result := by
  unfold handleImproveInstructions
  rw [if_neg hf]
  rcases h with ⟨m, hm⟩ | hm <;> rw [hm] <;> exact ⟨rfl, rfl, rfl⟩

/-- Witness for C4: from the concrete `success` session, feedback "fix" and
a whitespace-only model response leave status `success`, instructions and
result unchanged. -/
theorem improve_failure_preserves_result_witness :
    (handleImproveInstructions baseSession "fix" (Except.ok (some "  "))).1.status
      = GradingStatus.success ∧
    (handleImproveInstructions baseSession "fix" (Except.ok (some "  "))).1.instructions
      = baseSession.instructions ∧
    (handleImproveInstructions baseSession "fix" (Except.ok (some "  "))).1.result
      = baseSession.result :=
  improve_failure_preserves_result baseSession "fix" (Except.ok (some "  "))
    (by decide) (Or.inr rfl)

/-- Claim C5: with non-empty feedback, when refinement succeeds with a
non-empty rule `newRule`, the new ledger text is exactly the previous text,
a blank-line separator (absent when the ledger was empty), the
`[Updated Rule]: ` tag, and `newRule` — so all prior content is preserved
and `newRule` follows it, tagged as a machine-appended update — while the
previous result is discarded and the session returns to `idle`. -/
theorem improve_success_appends_rule (s : Session) (feedback newRule : String)
    (response : Except String (Option String)) (hf : feedback ≠ "")
    (h : generateImprovedInstructions s.instructions feedback s.language response
          = Except.ok newRule)
    (hr : newRule ≠ "") :
    (handleImproveInstructions s feedback response).1.instructions
        = s.instructions ++ (if s.instructions = "" then "" else "\n\n")
            ++ "[Updated Rule]: " ++ newRule ∧
    (handleImproveInstructions s feedback response).1.result = none ∧
    (handleImproveInstructions s feedback response).1.status = GradingStatus.idle := by
  unfold handleImproveInstructions
  rw [if_neg hf, h]
  refine ⟨?_, by simp [hr], by simp [hr]⟩
  by_cases hs : s.instructions = "" <;> simp [hr, hs, String.append_assoc]

/-- Witness for C5: from the concrete session with ledger "Be strict",
feedback and a non-empty rule append the tagged rule after a blank line,
clear the result and return to `idle`. -/
theorem improve_success_appends_rule_witness :
    (handleImproveInstructions baseSession "count spelling"
        (Except.ok (some "Deduct one point"))).1.instructions
        = baseSession.instructions
            ++ (if baseSession.instructions = "" then "" else "\n\n")
            ++ "[Updated Rule]: " ++ "Deduct one point" ∧
    (handleImproveInstructions baseSession "count spelling"
        (Except.ok (some "Deduct one point"))).1.result = none ∧
    (handleImproveInstructions baseSession "count spelling"
        (Except.ok (some "Deduct one point"))).1.status = GradingStatus.idle :=
  improve_success_appends_rule baseSession "count spelling" "Deduct one point"
    (Except.ok (some "Deduct one point")) (by decide) rfl (by decide)

/-- Claim C6: a response body (here: any body, in particular every
schema-conforming one) is returned by `gradeExam` exactly as parsed — the
identity round-trip, with no lossy transformation of any field. -/
theorem gradeExam_roundtrip (e r : List FileWithPreview) (i : String)
    (l : Language) (body : Json)
    (h : conforms gradingSchema body = true) :
    gradeExam e r i l (GradeModelOutcome.goodJson body) = Except.ok body := rfl

/-- Witness for C6: the concrete scenario body conforms to the declared
schema and round-trips unchanged. -/
theorem gradeExam_roundtrip_witness :
    conforms gradingSchema scenarioBody = true ∧
    gradeExam [] [] "" Language.en (GradeModelOutcome.goodJson scenarioBody)
      = Except.ok scenarioBody :=
  ⟨by decide, gradeExam_roundtrip [] [] "" Language.en scenarioBody (by decide)⟩

/-- Claim C7 counterexample: calling the refinement handler with empty
feedback on a concrete `success` session returns the session completely
unchanged with the no-invocation flag — in particular `errorMessage` is
`none` before and after, so no `InvalidRequest` is surfaced to the caller
(contrast `handleGrade`, which records its invalid-request signal in
`errorMessage`): the rejection is a silent no-op, not a signaled
`InvalidRequest`. -/
theorem improve_empty_feedback_silent :
    handleImproveInstructions baseSession "" (Except.error "network down")
      = (baseSession, false) ∧
    baseSession.errorMessage = none ∧
    (handleImproveInstructions baseSession "" (Except.error "network down")).1.errorMessage
      = none :=
  ⟨rfl, rfl, rfl⟩

/-- Claim C7 (amended): empty feedback makes the refinement handler a
silent no-op — the session is returned unchanged, no error is surfaced and
the model is not invoked — and the transition into `improving` (equivalent
to the model being invoked) happens exactly when the feedback is
non-empty. -/
theorem improve_empty_feedback_noop_guard (s : Session) (feedback : String)
    (response : Except String (Option String)) :
    (feedback = "" → handleImproveInstructions s feedback response = (s, false)) ∧
    (feedback ≠ "" → (handleImproveInstructions s feedback response).2 = true) := by
  constructor
  · intro h
    unfold handleImproveInstructions
    rw [if_pos h]
  · intro h
    unfold handleImproveInstructions
    rw [if_neg h]
    cases generateImprovedInstructions s.instructions feedback s.language response with
    | ok newRule => by_cases hrr : newRule ≠ "" <;> simp [hrr]
    | error e => rfl

/-- Witness for C7 (amended): instantiated at empty and at non-empty
feedback on the concrete session. -/
theorem improve_empty_feedback_noop_guard_witness :
    handleImproveInstructions baseSession "" (Except.ok (some "r"))
      = (baseSession, false) ∧
    (handleImproveInstructions baseSession "x" (Except.ok (some "r"))).2 = true :=
  ⟨(improve_empty_feedback_noop_guard baseSession "" (Except.ok (some "r"))).1 rfl,
   (improve_empty_feedback_noop_guard baseSession "x" (Except.ok (some "r"))).2 (by decide)⟩

/-- Claim C8: the refinement service returns the model response text with
surrounding whitespace trimmed (`response.text?.trim() || ""`), a missing
text yields the empty string, and — with non-empty feedback — a response
that trims to empty is a successful no-rule outcome: the handler leaves the
ledger unchanged and ends in `success`, not in an error state. -/
theorem generateImprovedInstructions_trim (a f : String) (l : Language)
    (s : Session) (t : String) (hf : f ≠ "") :
    generateImprovedInstructions a f l (Except.ok (some t)) = Except.ok (jsTrim t) ∧
    generateImprovedInstructions a f l (Except.ok none) = Except.ok "" ∧
    (jsTrim t = "" →
      (handleImproveInstructions s f (Except.ok (some t))).1.instructions
          = s.instructions ∧
      (handleImproveInstructions s f (Except.ok (some t))).1.status
          = GradingStatus.success) := by
  refine ⟨rfl, rfl, fun ht => ?_⟩
  unfold handleImproveInstructions
  rw [if_neg hf]
  have hg : generateImprovedInstructions s.instructions f s.language (Except.ok (some t))
      = Except.ok "" := by
    simp [generateImprovedInstructions, ht]
  rw [hg]
  exact ⟨rfl, rfl⟩

/-- Witness for C8: a whitespace-only response trims to the empty string
and leaves the concrete session ledger unchanged in the `success` state. -/
theorem generateImprovedInstructions_trim_witness :
    generateImprovedInstructions "cur" "fb" Language.en (Except.ok (some " \n "))
      = Except.ok (jsTrim " \n ") ∧
    (handleImproveInstructions baseSession "fb" (Except.ok (some " \n "))).1.instructions
      = baseSession.instructions ∧
    (handleImproveInstructions baseSession "fb" (Except.ok (some " \n "))).1.status
      = GradingStatus.success :=
  ⟨(generateImprovedInstructions_trim "cur" "fb" Language.en baseSession " \n "
      (by decide)).1,
   ((generateImprovedInstructions_trim "cur" "fb" Language.en baseSession " \n "
      (by decide)).2.2 (by decide)).1,
   ((generateImprovedInstructions_trim "cur" "fb" Language.en baseSession " \n "
      (by decide)).2.2 (by decide)).2⟩

/-- Claim C9: for the secondary language the leading instruction segment of
the composed request contains the explicit directive `langInstruction zh`
(the string demanding ALL text output fields in Simplified Chinese), and
the language is conveyed by no request parameter or schema flag: the
request `config` — mime type, response schema and temperature — is
identical for both languages. -/
theorem prompt_contains_language_directive (e r : List FileWithPreview)
    (i : String) :
    (∃ a b, promptText i Language.zh = a ++ langInstruction Language.zh ++ b) ∧
    (buildParts e r i Language.zh).head?
      = some (Part.text (promptText i Language.zh)) ∧
    (gradeRequest e r i Language.zh).config = (gradeRequest e r i Language.en).config := by
  refine ⟨⟨promptHead,
      promptMid
        ++ (if jsTrim i ≠ "" then "\n\nAdditional Teacher Instructions: " ++ i else "")
        ++ "\n\nBelow are the images. First, the Answer Key/Rubric, then the Student Exam.",
      ?_⟩, rfl, rfl⟩
  simp [promptText, basePrompt, String.append_assoc]

/-- Claim C10: a file whose base64 payload is absent contributes neither an
image segment nor a page label, and each emitted page label is computed
from the file's original 0-based position in the input sequence; concretely,
a two-file group whose first file lacks a payload emits only the segments
for page 2, so the emitted labels need not be consecutive. -/
theorem pushImageParts_skips_missing_base64 :
    (∀ (label : Nat → String) (k : Nat) (files : List FileWithPreview),
        pushImageParts label k files
          = (List.enumFrom k files).flatMap (labeledChunk label)) ∧
    pushImageParts rubricLabel 0 [sampleFileNoData, sampleFile]
      = [Part.text "[Image: Rubric Page 2]", Part.inlineData "image/png" "QUJD"] :=
  ⟨pushImageParts_eq_chunks, by decide⟩

end SmartGrade
